import Mathlib

set_option maxHeartbeats 1000000

/-!
Shallow embedding of the oav spec-validation core.

The SpecValidator namespace embeds the class of the same name from the
repository source (validateRequest, validateXmsExampleResponses,
getXmsExamples), following the JavaScript semantics of the file: object
truthiness, property lookup defaulting to undefined, loop break and
continue, and strict-mode identifier resolution in which an unbound
identifier raises a ReferenceError when evaluated.

The LiveValidator namespace models the live-traffic validator, whose
implementation file is not part of the sampled sources (only its test
suite is); its definitions are modelled from the specification document,
as marked on each definition.
-/

namespace Oav

/-- JavaScript runtime values, as far as the embedded code inspects them:
primitives plus abstract object references (objects are always truthy; their
properties are accessed through explicitly passed accessor functions). -/
inductive JsValue where
  | undefined
  | null
  | bool (b : Bool)
  | num (n : Int)
  | str (s : String)
  | obj (id : Nat)
deriving DecidableEq, Repr

/-- JavaScript falsiness: undefined, null, false, 0 and the empty string
are falsy; every other value (including every object) is truthy. -/
def jsFalsy : JsValue → Bool
  | JsValue.undefined => true
  | JsValue.null => true
  | JsValue.bool b => !b
  | JsValue.num n => n == 0
  | JsValue.str s => s == ""
  | JsValue.obj _ => false

/-- JavaScript truthiness, the negation of falsiness. -/
def jsTruthy (v : JsValue) : Bool := !(jsFalsy v)

/-- Property read on a dictionary-like object: a missing key yields
undefined, as in JavaScript. -/
def jsLookup (o : List (String × JsValue)) (k : String) : JsValue :=
  match o.lookup k with
  | some v => v
  | none => JsValue.undefined

/-- Property write on a dictionary-like object: assignment replaces any
existing binding for the key. -/
def jsSet (o : List (String × JsValue)) (k : String) (v : JsValue) : List (String × JsValue) :=
  (o.filter (fun e => e.1 != k)) ++ [(k, v)]

/-- Array index read: an out-of-range index yields undefined. -/
def jsIndex (a : List String) (i : Nat) : JsValue :=
  match a.get? i with
  | some s => JsValue.str s
  | none => JsValue.undefined

/-- The result of applying the JavaScript typeof operator to the result of
calling valueOf on a value, as the source does to discriminate strings. -/
def jsTypeofValueOf : JsValue → String
  | JsValue.undefined => "undefined"
  | JsValue.null => "object"
  | JsValue.bool _ => "boolean"
  | JsValue.num _ => "number"
  | JsValue.str _ => "string"
  | JsValue.obj _ => "object"

/-- Outcome of evaluating a piece of JavaScript: either a normal value or
a thrown exception (carried as its message). -/
inductive JsOutcome (α : Type) where
  | ok (a : α)
  | thrown (msg : String)
deriving DecidableEq, Repr

/-- Sequencing of JavaScript evaluation: a thrown exception propagates. -/
def jsBind {α β : Type} (x : JsOutcome α) (f : α → JsOutcome β) : JsOutcome β :=
  match x with
  | JsOutcome.ok a => f a
  | JsOutcome.thrown m => JsOutcome.thrown m

/-- Strict-mode identifier resolution: reading an identifier that is not
bound in any enclosing scope raises a ReferenceError. -/
def resolveIdentifier (scope : List String) (name : String) : JsOutcome Unit :=
  if scope.contains name then JsOutcome.ok ()
  else JsOutcome.thrown ("ReferenceError: " ++ name ++ " is not defined")

namespace SpecValidator

/-- An error object built by constructErrorObject: an error-code name plus
a message. -/
structure SpecError where
  code : String
  message : String
deriving DecidableEq, Repr

/-- An errors/warnings pair, the shape of validationResult objects. -/
structure ValidationLists where
  errors : List SpecError
  warnings : List SpecError
deriving DecidableEq, Repr

/-- Merge of two validationResult objects (utils.mergeObjects of the
source merged into the target: the list fields are combined; merging the
empty object leaves the target unchanged). -/
def mergeValidationLists (source target : ValidationLists) : ValidationLists :=
  { errors := source.errors ++ target.errors
    warnings := source.warnings ++ target.warnings }

/-- One declared parameter of a sway operation, with the fields the
embedded code reads: name, the location field (named in in the source),
required, and the x-ms-skip-url-encoding extension. -/
structure SwayParameter where
  name : String
  location : String
  required : Bool
  skipUrlEncoding : Bool
deriving DecidableEq, Repr

/-- One declared response of a sway operation: its status code and its
schema property (undefined when the spec declares none). -/
structure SwayResponse where
  statusCode : String
  schema : JsValue
deriving DecidableEq, Repr

/-- The slice of a sway operation object that the embedded methods read. -/
structure SwayOperation where
  operationId : String
  method : String
  path : String
  parameters : List SwayParameter
  responses : List SwayResponse
  produces : List String
deriving DecidableEq, Repr

/-- operation.getResponse: the declared response with the given status
code, if any. -/
def getResponse (op : SwayOperation) (statusCode : String) : Option SwayResponse :=
  op.responses.find? (fun r => r.statusCode == statusCode)

/-- A path or query entry of the options object: either the raw example
value, or the value wrapped together with skipUrlEncoding true. -/
inductive ParamEntry where
  | plain (v : JsValue)
  | withSkipUrlEncoding (v : JsValue)
deriving DecidableEq, Repr

/-- The options object assembled by validateRequest before the request is
prepared. -/
structure RequestOptions where
  method : String
  pathTemplate : String
  pathParameters : List (String × ParamEntry) := []
  queryParameters : List (String × ParamEntry) := []
  headers : List (String × JsValue) := []
  body : JsValue := JsValue.undefined
  disableJsonStringifyOnBody : Bool := false
deriving DecidableEq, Repr

/-- The error pushed when a required parameter has no example value
(constructErrorObject with ErrorCodes.RequiredParameterExampleNotFound). -/
def requiredParameterExampleNotFoundError (operationId name : String) : SpecError :=
  { code := "RequiredParameterExampleNotFound"
    message := "In operation \"" ++ operationId ++ "\", parameter " ++ name ++
      " is required in the swagger spec but is not present in the provided example parameter values." }

/-- Assignment into a path- or query-parameter dictionary of the options
object: it replaces any existing binding for the key, like jsSet. -/
def jsSetEntry (o : List (String × ParamEntry)) (k : String) (e : ParamEntry) :
    List (String × ParamEntry) :=
  (o.filter (fun x => x.1 != k)) ++ [(k, e)]

/-- The assignment of one located parameter value into the options object,
following the location branches of the loop body. -/
def addLocatedParameter (opts : RequestOptions) (p : SwayParameter) (v : JsValue) : RequestOptions :=
  if p.location == "path" || p.location == "query" then
    let entry := if p.skipUrlEncoding then ParamEntry.withSkipUrlEncoding v else ParamEntry.plain v
    if p.location == "path" then
      { opts with pathParameters := jsSetEntry opts.pathParameters p.name entry }
    else
      { opts with queryParameters := jsSetEntry opts.queryParameters p.name entry }
  else if p.location == "body" then
    { opts with body := v, disableJsonStringifyOnBody := true }
  else if p.location == "header" then
    { opts with headers := jsSet opts.headers p.name v }
  else
    opts

/-- The parameter loop of validateRequest. A falsy example value of a
required parameter pushes a RequiredParameterExampleNotFound error, sets
foundIssues and breaks out of the loop; a falsy value of an optional
parameter continues with the next parameter; a truthy value is written
into the options object by location. The result is the final options
object, the errors pushed so far, and the foundIssues flag. -/
def processParameters (operationId : String) (exampleParameterValues : List (String × JsValue)) :
    List SwayParameter → RequestOptions → List SpecError →
      RequestOptions × List SpecError × Bool
  | [], opts, errs => (opts, errs, false)
  | p :: rest, opts, errs =>
    let v := jsLookup exampleParameterValues p.name
    if jsFalsy v then
      if p.required then
        (opts, errs ++ [requiredParameterExampleNotFoundError operationId p.name], true)
      else
        processParameters operationId exampleParameterValues rest opts errs
    else
      processParameters operationId exampleParameterValues rest (addLocatedParameter opts p v) errs

/-- A prepared ms-rest request object (external collaborator: only its
identity matters to the embedded code). -/
structure HttpRequest where
  fromOptions : RequestOptions
deriving DecidableEq, Repr

/-- The value returned by validateRequest on normal completion. -/
structure ValidateRequestResult where
  request : Option HttpRequest
  validationResult : ValidationLists
deriving DecidableEq, Repr

/-- The identifiers in scope inside the catch block of validateRequest:
the catch binder err, the method locals, the method arguments, and the
module-level bindings of the file. The identifier error is not among
them. -/
def validateRequestCatchScope : List String :=
  ["err", "request", "validationResult", "self", "operation",
   "exampleParameterValues", "parameters", "result", "foundIssues", "options",
   "util", "path", "Sway", "msRest", "HttpRequest", "SpecResolver",
   "SpecValidationResult", "utils", "Constants", "log", "ResponseWrapper",
   "ErrorCodes", "SpecValidator", "require", "module", "exports"]

/-- The catch handler of validateRequest. Its first evaluation step reads
the identifier error (to pass error.message to constructErrorObject),
which is unbound in the enclosing scopes, so a ReferenceError is raised;
even if it were bound, validationResult is still the empty object at this
point, so pushing onto validationResult.errors would raise a TypeError.
Either way the handler itself throws. -/
def validateRequestCatchHandler : JsOutcome ValidateRequestResult :=
  jsBind (resolveIdentifier validateRequestCatchScope ("error")) (fun _ =>
    JsOutcome.thrown ("TypeError: Cannot read property push of undefined"))

/-- SpecValidator.validateRequest. The parameter loop assembles the
options object; if no required parameter was found missing, the request is
prepared (ms-rest WebResource.prepare, external, passed as a function that
may throw) and validated by sway (external); a failure of that try block
runs the catch handler above. On normal completion the loop errors and
the sway validation result are merged into the returned result. -/
def validateRequest (op : SwayOperation) (exampleParameterValues : List (String × JsValue))
    (prepare : RequestOptions → JsOutcome HttpRequest)
    (swayValidateRequest : HttpRequest → ValidationLists) : JsOutcome ValidateRequestResult :=
  let startOptions : RequestOptions := { method := op.method, pathTemplate := op.path }
  let step := processParameters op.operationId exampleParameterValues op.parameters startOptions []
  let options := step.1
  let loopErrors := step.2.1
  let foundIssues := step.2.2
  if foundIssues then
    JsOutcome.ok
      { request := none
        validationResult :=
          mergeValidationLists { errors := [], warnings := [] }
            { errors := loopErrors, warnings := [] } }
  else
    match prepare options with
    | JsOutcome.ok request =>
      let validationResult := swayValidateRequest request
      JsOutcome.ok
        { request := some request
          validationResult :=
            mergeValidationLists validationResult { errors := loopErrors, warnings := [] } }
    | JsOutcome.thrown _ => validateRequestCatchHandler

/-- One example response value: its headers object and its body. -/
structure ExampleResponse where
  headers : List (String × JsValue)
  body : JsValue
deriving DecidableEq, Repr

/-- The ResponseWrapper handed to sway for response validation. -/
structure ResponseWrapper where
  statusCode : String
  body : JsValue
  headers : List (String × JsValue)
deriving DecidableEq, Repr

/-- The error pushed when an example response status code is not declared
in the swagger spec (ErrorCodes.ResponseStatusCodeNotInSpec). -/
def responseStatusCodeNotInSpecError (operationId statusCode : String) : SpecError :=
  { code := "ResponseStatusCodeNotInSpec"
    message := "Response statusCode \"" ++ statusCode ++ "\" for operation \"" ++ operationId ++
      "\" is provided in exampleResponseValue, however it is not present in the swagger spec." }

/-- The error pushed when an example supplies a response body but the
declared response has no schema (ErrorCodes.ResponseSchemaNotInSpec). -/
def responseSchemaNotInSpecError (operationId statusCode : String) : SpecError :=
  { code := "ResponseSchemaNotInSpec"
    message := "Response statusCode \"" ++ statusCode ++ "\" for operation \"" ++ operationId ++
      "\" has response body provided in the example, however the response does not have a \"schema\" defined in the swagger spec." }

/-- The body of one iteration of the status-code loop of
validateXmsExampleResponses: an undeclared status code yields a
ResponseStatusCodeNotInSpec error and continues; a truthy example body
paired with a falsy declared schema yields a ResponseSchemaNotInSpec error
and continues; otherwise a missing content-type header (neither the
lower-case nor the capitalised key truthy) is defaulted to produces[0]
before sway validates the wrapped response (external, passed as a
function). -/
def validateOneExampleResponse (op : SwayOperation)
    (swayValidateResponse : ResponseWrapper → ValidationLists)
    (entry : String × ExampleResponse) : String × ValidationLists :=
  let statusCode := entry.1
  let ex := entry.2
  match getResponse op statusCode with
  | none =>
    (statusCode,
      { errors := [responseStatusCodeNotInSpecError op.operationId statusCode], warnings := [] })
  | some response =>
    let exampleResponseHeaders := ex.headers
    let exampleResponseBody := ex.body
    if jsTruthy exampleResponseBody && jsFalsy response.schema then
      (statusCode,
        { errors := [responseSchemaNotInSpecError op.operationId statusCode], warnings := [] })
    else
      let headersWithContentType :=
        if jsFalsy (jsLookup exampleResponseHeaders ("content-type")) &&
            jsFalsy (jsLookup exampleResponseHeaders ("Content-Type")) then
          jsSet exampleResponseHeaders ("content-type") (jsIndex op.produces 0)
        else
          exampleResponseHeaders
      (statusCode,
        swayValidateResponse
          { statusCode := statusCode, body := exampleResponseBody,
            headers := headersWithContentType })

/-- SpecValidator.validateXmsExampleResponses: the per-status-code result
object, one entry per example response status code. The trailing block of
the source that lists declared codes missing from the examples only builds
an unused message string and does not affect the returned result. -/
def validateXmsExampleResponses (op : SwayOperation)
    (swayValidateResponse : ResponseWrapper → ValidationLists)
    (exampleResponseValue : List (String × ExampleResponse)) :
    List (String × ValidationLists) :=
  exampleResponseValue.map (validateOneExampleResponse op swayValidateResponse)

/-- The identifiers in scope inside getXmsExamples where the string branch
evaluates self.getOperationById(id): the argument, the locals declared
before that point, and the module-level bindings. Neither self nor id is
among them. -/
def getXmsExamplesScope : List String :=
  ["idOrObj", "operation", "this",
   "util", "path", "Sway", "msRest", "HttpRequest", "SpecResolver",
   "SpecValidationResult", "utils", "Constants", "log", "ResponseWrapper",
   "ErrorCodes", "SpecValidator", "require", "module", "exports"]

/-- SpecValidator.getXmsExamples. A falsy argument throws the null-check
error. A string argument runs the branch operation = self.getOperationById(id),
whose evaluation first resolves the identifiers self and id; neither is
bound in this method, so the branch throws and never completes normally
(the continuation after both resolutions is therefore dead and modelled as
undefined). An object argument is used as the operation directly and its
x-ms-examples property (read through the supplied accessor) is returned
when truthy, else the result stays undefined. -/
def getXmsExamples (xmsExamplesOf : JsValue → JsValue) (idOrObj : JsValue) : JsOutcome JsValue :=
  if jsFalsy idOrObj then
    JsOutcome.thrown
      ("Error: idOrObj cannot be null or undefined and must be of type string or object.")
  else if jsTypeofValueOf idOrObj == "string" then
    jsBind (resolveIdentifier getXmsExamplesScope ("self")) (fun _ =>
      jsBind (resolveIdentifier getXmsExamplesScope ("id")) (fun _ =>
        JsOutcome.ok JsValue.undefined))
  else
    let operation := idOrObj
    if jsTruthy operation && jsTruthy (xmsExamplesOf operation) then
      JsOutcome.ok (xmsExamplesOf operation)
    else
      JsOutcome.ok JsValue.undefined

end SpecValidator

namespace LiveValidator

/-- Modelled from the spec: a validation error of the live validator,
a code from the taxonomy plus a message. The liveValidator implementation
file is not among the sampled sources (only its test suite is); every
definition in this namespace is modelled from the specification text. -/
structure ValidationError where
  code : String
  message : String
deriving DecidableEq, Repr

/-- Modelled from the spec: a ValidationResult, an ordered sequence of
errors plus an ordered sequence of warnings. -/
structure ValidationResult where
  errors : List ValidationError
  warnings : List ValidationError
deriving DecidableEq, Repr

/-- Modelled from the spec: a reference to a structural schema, resolved
by the external structural validator. -/
abbrev SchemaRef := Nat

/-- Modelled from the spec: the external structural-schema collaborator,
validateAgainstSchema(schemaRef, value) returning raw mismatch errors. -/
abbrev SchemaValidator := SchemaRef → Oav.JsValue → List ValidationError

/-- Modelled from the spec: one segment of a path template, either a
literal or a named parameter placeholder. -/
inductive PathSegment where
  | literal (s : String)
  | param (name : String)
deriving DecidableEq, Repr

/-- Modelled from the spec: one declared parameter of an operation. -/
structure LiveParameter where
  name : String
  location : String
  required : Bool
  schema : Option SchemaRef := none
deriving DecidableEq, Repr

/-- Modelled from the spec: a ResponseSpec, an optional body schema plus
declared headers. -/
structure ResponseSpec where
  schema : Option SchemaRef := none
  headers : List (String × SchemaRef) := []
deriving DecidableEq, Repr

/-- Modelled from the spec: the normalized in-memory representation of one
contract operation held by the cache. -/
structure LiveOperation where
  operationId : String
  httpVerb : String
  pathTemplate : List PathSegment
  parameters : List LiveParameter := []
  responses : List (String × ResponseSpec) := []
  produces : List String := []
deriving DecidableEq, Repr

/-- Modelled from the spec: the verb level of the operation cache. -/
abbrev VerbMap := List (String × List LiveOperation)

/-- Modelled from the spec: the api-version level of the operation cache. -/
abbrev ApiVersionMap := List (String × VerbMap)

/-- Modelled from the spec: the three-level operation cache, provider
namespace to api-version to verb to operations. -/
abbrev Cache := List (String × ApiVersionMap)

/-- Modelled from the spec: the reserved unknown-provider bucket key. -/
def unknownResourceProvider : String := "microsoft.unknown"

/-- Modelled from the spec: the reserved unknown-api-version bucket key. -/
def unknownApiVersion : String := "unknown-api-version"

/-- Modelled from the spec: the path part of a URL split into non-empty
segments, after discarding the leading scheme and host when present. -/
def pathSegmentsOf (pathPart : String) : List String :=
  match pathPart.splitOn ("://") with
  | [p] => (p.splitOn ("/")).filter (fun s => s != "")
  | _ :: rest :: _ => (((rest.splitOn ("/")).drop 1)).filter (fun s => s != "")
  | [] => []

/-- Modelled from the spec: query-string parsing into key-value pairs. -/
def queryPairsOf (queryPart : String) : List (String × String) :=
  if queryPart == "" then []
  else
    (queryPart.splitOn ("&")).map (fun kv =>
      match kv.splitOn ("=") with
      | [] => ("", "")
      | [k] => (k, "")
      | k :: vs => (k, String.intercalate ("=") vs))

/-- Modelled from the spec: step 1 of the matcher, parsing the request URL
into path segments and query parameters. -/
def parseUrl (url : String) : List String × List (String × String) :=
  match url.splitOn ("?") with
  | [] => ([], [])
  | [p] => (pathSegmentsOf p, [])
  | p :: q :: _ => (pathSegmentsOf p, queryPairsOf q)

/-- Modelled from the spec: provider extraction, the segment immediately
following a literal providers segment, lower-cased; when no such segment
exists the unknown-provider bucket key is used. -/
def extractProvider : List String → String
  | [] => unknownResourceProvider
  | [_] => unknownResourceProvider
  | s :: next :: rest =>
    if s.toLower == "providers" then next.toLower else extractProvider (next :: rest)

/-- Modelled from the spec: the path segments of a request URL. -/
def requestPathSegments (url : String) : List String := (parseUrl url).1

/-- Modelled from the spec: the query parameters of a request URL. -/
def requestQuery (url : String) : List (String × String) := (parseUrl url).2

/-- Modelled from the spec: the provider namespace extracted from a
request URL. -/
def requestProvider (url : String) : String := extractProvider (requestPathSegments url)

/-- Modelled from the spec: the api-version query parameter of a request
URL, with the unknown-api-version bucket key when absent. -/
def requestApiVersion (url : String) : String :=
  match (requestQuery url).lookup ("api-version") with
  | some v => v
  | none => unknownApiVersion

/-- Modelled from the spec: the structured, non-fatal reasons a match can
fail. -/
inductive MatchReasonCode where
  | OperationNotFoundInCacheWithProvider
  | OperationNotFoundInCacheWithApi
  | OperationNotFoundInCacheWithVerb
  | OperationNotFoundInCache
deriving DecidableEq, Repr

/-- Modelled from the spec: the code name of a match-failure reason. -/
def MatchReasonCode.codeName : MatchReasonCode → String
  | MatchReasonCode.OperationNotFoundInCacheWithProvider => "OperationNotFoundInCacheWithProvider"
  | MatchReasonCode.OperationNotFoundInCacheWithApi => "OperationNotFoundInCacheWithApi"
  | MatchReasonCode.OperationNotFoundInCacheWithVerb => "OperationNotFoundInCacheWithVerb"
  | MatchReasonCode.OperationNotFoundInCache => "OperationNotFoundInCache"

/-- Modelled from the spec: the matcher result, candidate operations plus
an optional structured failure reason. -/
structure PotentialOperationsResult where
  operations : List LiveOperation
  reason : Option MatchReasonCode
deriving DecidableEq, Repr

/-- Modelled from the spec: step 6 of the matcher, segment-by-segment
template comparison; literal segments compare exactly or case-insensitively
according to the isPathCaseSensitive policy (default false), a parameter
segment matches any single non-empty segment, and the segment counts must
match exactly. -/
def segmentsMatchTemplate (isPathCaseSensitive : Bool) :
    List PathSegment → List String → Bool
  | [], [] => true
  | PathSegment.literal l :: ts, s :: ss =>
    (if isPathCaseSensitive then l == s else l.toLower == s.toLower) &&
      segmentsMatchTemplate isPathCaseSensitive ts ss
  | PathSegment.param _ :: ts, s :: ss =>
    (s != "") && segmentsMatchTemplate isPathCaseSensitive ts ss
  | _, _ => false

/-- Modelled from the spec: the operation matcher. Provider, api-version
and verb buckets are looked up in order, a miss at each level returning
the corresponding structured reason with an empty operation list (a verb
bucket that is missing or empty gives the verb reason); among the verb
bucket candidates every operation whose template matches the request path
is returned, the empty match set giving the generic reason. The function
is total: no input makes it throw. -/
def getPotentialOperations (isPathCaseSensitive : Bool) (cache : Cache)
    (requestUrl verb : String) : PotentialOperationsResult :=
  match cache.lookup (requestProvider requestUrl) with
  | none =>
    { operations := [], reason := some MatchReasonCode.OperationNotFoundInCacheWithProvider }
  | some apiVersionMap =>
    match apiVersionMap.lookup (requestApiVersion requestUrl) with
    | none =>
      { operations := [], reason := some MatchReasonCode.OperationNotFoundInCacheWithApi }
    | some verbMap =>
      match verbMap.lookup verb.toLower with
      | none =>
        { operations := [], reason := some MatchReasonCode.OperationNotFoundInCacheWithVerb }
      | some operationsForVerb =>
        if operationsForVerb.isEmpty then
          { operations := [], reason := some MatchReasonCode.OperationNotFoundInCacheWithVerb }
        else
          let matched := operationsForVerb.filter (fun op =>
            segmentsMatchTemplate isPathCaseSensitive op.pathTemplate
              (requestPathSegments requestUrl))
          if matched.isEmpty then
            { operations := [], reason := some MatchReasonCode.OperationNotFoundInCache }
          else
            { operations := matched, reason := none }

/-- Modelled from the spec: a live response, status code normalized to a
string, case-insensitive headers, optional body. -/
structure LiveResponse where
  statusCode : String
  headers : List (String × String) := []
  body : Oav.JsValue := Oav.JsValue.undefined
deriving DecidableEq, Repr

/-- Modelled from the spec: a live request. -/
structure LiveRequest where
  url : String
  method : String
  headers : List (String × String) := []
  query : List (String × String) := []
  body : Oav.JsValue := Oav.JsValue.undefined
deriving DecidableEq, Repr

/-- Modelled from the spec: the numeric value of a run of decimal digit
characters, none when a non-digit occurs. -/
def digitsToNat? : List Char → Nat → Option Nat
  | [], acc => some acc
  | c :: cs, acc =>
    let n := c.toNat
    if 48 ≤ n && n ≤ 57 then digitsToNat? cs (acc * 10 + (n - 48)) else none

/-- Modelled from the spec: the numeric interpretation of a status-code
string, used for the numerically-at-least-400 comparison; a non-numeric
string (such as the literal default) has no numeric value. -/
def statusCodeToNat? (s : String) : Option Nat :=
  match s.data with
  | [] => none
  | l => digitsToNat? l 0

/-- Modelled from the spec: the INVALID_RESPONSE_CODE error reported for
an undeclared status code not covered by a default error response. -/
def invalidResponseCodeError (statusCode : String) : ValidationError :=
  { code := "INVALID_RESPONSE_CODE"
    message := "The response status code " ++ statusCode ++ " is not declared for this operation." }

/-- Modelled from the spec: body validation against a ResponseSpec, a
structural check of the body when the spec declares a schema and nothing
otherwise. -/
def validateBodyAgainstSpec (v : SchemaValidator) (spec : ResponseSpec)
    (body : Oav.JsValue) : List ValidationError :=
  match spec.schema with
  | some s => v s body
  | none => []

/-- Modelled from the spec: case-insensitive header lookup. -/
def lookupHeaderCI (headers : List (String × String)) (name : String) : Option String :=
  (headers.find? (fun e => e.1.toLower == name.toLower)).map (fun e => e.2)

/-- Modelled from the spec: each header declared in the ResponseSpec is
checked for type when present; undeclared and absent headers are not
errors. -/
def validateDeclaredHeaders (v : SchemaValidator) (spec : ResponseSpec)
    (resp : LiveResponse) : List ValidationError :=
  spec.headers.foldr (fun h acc =>
    match lookupHeaderCI resp.headers h.1 with
    | some value => v h.2 (Oav.JsValue.str value) ++ acc
    | none => acc) []

/-- Modelled from the spec: status-code resolution of the response
validator. A declared status code is validated against its ResponseSpec;
an undeclared one is validated against the default ResponseSpec when one
is declared and the code is numerically at least 400, with no
code-not-declared error; otherwise INVALID_RESPONSE_CODE is reported and
body validation is skipped. -/
def validateResponseAgainstOperation (v : SchemaValidator) (op : LiveOperation)
    (resp : LiveResponse) : ValidationResult :=
  match op.responses.lookup resp.statusCode with
  | some spec =>
    { errors := validateBodyAgainstSpec v spec resp.body ++ validateDeclaredHeaders v spec resp
      warnings := [] }
  | none =>
    match op.responses.lookup ("default") with
    | some defaultSpec =>
      if 400 ≤ (statusCodeToNat? resp.statusCode).getD 0 then
        { errors :=
            validateBodyAgainstSpec v defaultSpec resp.body ++
              validateDeclaredHeaders v defaultSpec resp
          warnings := [] }
      else
        { errors := [invalidResponseCodeError resp.statusCode], warnings := [] }
    | none =>
      { errors := [invalidResponseCodeError resp.statusCode], warnings := [] }

/-- Modelled from the spec: MISSING_REQUIRED_PARAMETER, reported when a
required declared parameter has no value in the live request. -/
def missingRequiredParameterError (name : String) : ValidationError :=
  { code := "MISSING_REQUIRED_PARAMETER"
    message := "Value is required but was not provided for parameter " ++ name ++ "." }

/-- Modelled from the spec: the error reported when no operation could be
matched, carrying the structured reason code. -/
def operationNotFoundError (reason : Option MatchReasonCode) : ValidationError :=
  { code :=
      match reason with
      | some r => r.codeName
      | none => MatchReasonCode.OperationNotFoundInCache.codeName
    message := "No operation matching the request could be found in the cache." }

/-- Modelled from the spec: the position of a named parameter segment in a
path template. -/
def templateParamIndex (tpl : List PathSegment) (name : String) : Option Nat :=
  tpl.findIdx? (fun s =>
    match s with
    | PathSegment.param n => n == name
    | PathSegment.literal _ => false)

/-- Modelled from the spec: locating a declared parameter value in the
live request, by path segment position, query map, header map, or body. -/
def locateParameterValue (op : LiveOperation) (req : LiveRequest)
    (p : LiveParameter) : Option Oav.JsValue :=
  if p.location == "path" then
    match templateParamIndex op.pathTemplate p.name with
    | some i => ((requestPathSegments req.url).get? i).map Oav.JsValue.str
    | none => none
  else if p.location == "query" then
    ((req.query.find? (fun e => e.1.toLower == p.name.toLower)).map
      (fun e => Oav.JsValue.str e.2))
  else if p.location == "header" then
    ((req.headers.find? (fun e => e.1.toLower == p.name.toLower)).map
      (fun e => Oav.JsValue.str e.2))
  else if p.location == "body" then
    (if req.body == Oav.JsValue.undefined then none else some req.body)
  else
    none

/-- Modelled from the spec: the parameter checks of the request validator;
a missing required value reports MISSING_REQUIRED_PARAMETER and stops only
the further derived checks of that parameter, the remaining parameters are
still considered; a present value is checked by the external structural
validator. -/
def validateRequestParameters (v : SchemaValidator) (op : LiveOperation)
    (req : LiveRequest) : List ValidationError :=
  op.parameters.foldr (fun p acc =>
    match locateParameterValue op req p with
    | none => if p.required then missingRequiredParameterError p.name :: acc else acc
    | some value =>
      match p.schema with
      | some s => v s value ++ acc
      | none => acc) []

/-- Modelled from the spec: validateRequest of the library surface,
matching the request and then validating it against the matched
operation. -/
def validateLiveRequest (isPathCaseSensitive : Bool) (v : SchemaValidator)
    (cache : Cache) (liveRequest : LiveRequest) : ValidationResult :=
  let potential :=
    getPotentialOperations isPathCaseSensitive cache liveRequest.url liveRequest.method
  match potential.operations with
  | [] => { errors := [operationNotFoundError potential.reason], warnings := [] }
  | op :: _ => { errors := validateRequestParameters v op liveRequest, warnings := [] }

/-- Modelled from the spec: the request context handed to the response
validator, the url and method of the paired request. -/
structure RequestContext where
  url : String
  method : String
deriving DecidableEq, Repr

/-- Modelled from the spec: validateResponse of the library surface,
matching via the request context and then validating the live response
against the matched operation. -/
def validateLiveResponse (isPathCaseSensitive : Bool) (v : SchemaValidator)
    (cache : Cache) (liveResponse : LiveResponse)
    (specOperation : RequestContext) : ValidationResult :=
  let potential :=
    getPotentialOperations isPathCaseSensitive cache specOperation.url specOperation.method
  match potential.operations with
  | [] => { errors := [operationNotFoundError potential.reason], warnings := [] }
  | op :: _ => validateResponseAgainstOperation v op liveResponse

/-- Modelled from the spec: a captured live transaction. -/
structure RequestResponsePair where
  liveRequest : LiveRequest
  liveResponse : LiveResponse
deriving DecidableEq, Repr

/-- Modelled from the spec: the options of the combined entry point; an
absent includeErrors is the empty sequence. -/
structure LiveValidationOptions where
  includeErrors : List String := []
deriving DecidableEq, Repr

/-- Modelled from the spec: the combined result exposing the request and
response validation results independently. -/
structure RequestResponseValidationResult where
  requestValidationResult : ValidationResult
  responseValidationResult : ValidationResult
deriving DecidableEq, Repr

/-- Modelled from the spec: the aggregator filter; a non-empty
includeErrors sequence keeps only the errors whose code is in the
sequence, an absent or empty sequence passes every error through; the
underlying result is never mutated, a new view is produced. -/
def filterErrorsByCodes (includeErrors : List String) (r : ValidationResult) : ValidationResult :=
  if includeErrors.isEmpty then r
  else { r with errors := r.errors.filter (fun e => includeErrors.contains e.code) }

/-- Modelled from the spec: validateRequestResponse of the library
surface, validating the request and the response of the pair (the
response with the request context taken from the paired request) and
applying the includeErrors filter to both results. -/
def validateLiveRequestResponse (isPathCaseSensitive : Bool) (v : SchemaValidator)
    (cache : Cache) (pair : RequestResponsePair)
    (options : LiveValidationOptions) : RequestResponseValidationResult :=
  let requestResult := validateLiveRequest isPathCaseSensitive v cache pair.liveRequest
  let responseResult :=
    validateLiveResponse isPathCaseSensitive v cache pair.liveResponse
      { url := pair.liveRequest.url, method := pair.liveRequest.method }
  { requestValidationResult := filterErrorsByCodes options.includeErrors requestResult
    responseValidationResult := filterErrorsByCodes options.includeErrors responseResult }

end LiveValidator

/-! Concrete instances used by the witnesses and counterexamples below. -/

/-- An operation with one required body parameter, used to exercise the
request-preparation failure path of validateRequest. -/
def c1Operation : SpecValidator.SwayOperation :=
  { operationId := "Storage_Check", method := "post"
    path := "/providers/Microsoft.Storage/checkNameAvailability"
    parameters := [{ name := "body", location := "body", required := true, skipUrlEncoding := false }]
    responses := [], produces := [] }

/-- A request-preparation function that throws, standing for an ms-rest
prepare call failing on the assembled options. -/
def c1PrepareFailing : SpecValidator.RequestOptions → Oav.JsOutcome SpecValidator.HttpRequest :=
  fun _ => Oav.JsOutcome.thrown ("Error: the assembled request options are malformed.")

/-- A sway request validator returning no findings. -/
def swayValidateNothing : SpecValidator.HttpRequest → SpecValidator.ValidationLists :=
  fun _ => { errors := [], warnings := [] }

/-- A request-preparation function that always succeeds. -/
def prepareSucceeding : SpecValidator.RequestOptions → Oav.JsOutcome SpecValidator.HttpRequest :=
  fun o => Oav.JsOutcome.ok { fromOptions := o }

/-- The first declared parameter of the two-required-parameters operation. -/
def c2ParameterA : SpecValidator.SwayParameter :=
  { name := "a", location := "query", required := true, skipUrlEncoding := false }

/-- The second declared parameter of the two-required-parameters
operation. -/
def c2ParameterB : SpecValidator.SwayParameter :=
  { name := "b", location := "query", required := true, skipUrlEncoding := false }

/-- An operation declaring two required query parameters. -/
def c2Operation : SpecValidator.SwayOperation :=
  { operationId := "Ops_Two", method := "put", path := "/widgets"
    parameters := [c2ParameterA, c2ParameterB]
    responses := [], produces := [] }

/-- An operation with a declared 200 response that has a schema, used for
the content-type defaulting scenario. -/
def c7Operation : SpecValidator.SwayOperation :=
  { operationId := "Media_Get", method := "get", path := "/providers/Microsoft.Media/services"
    parameters := []
    responses := [{ statusCode := "200", schema := Oav.JsValue.obj 1 }]
    produces := ["application/json"] }

/-- An example response carrying a body and no headers. -/
def c7Example : SpecValidator.ExampleResponse :=
  { headers := [], body := Oav.JsValue.obj 2 }

/-- A sway response validator returning no findings. -/
def swayValidateResponseNothing : SpecValidator.ResponseWrapper → SpecValidator.ValidationLists :=
  fun _ => { errors := [], warnings := [] }

/-- An operation whose only declared response, 200, has no schema. -/
def c8Operation : SpecValidator.SwayOperation :=
  { operationId := "Thing_Get", method := "get", path := "/things"
    parameters := []
    responses := [{ statusCode := "200", schema := Oav.JsValue.undefined }]
    produces := ["application/json"] }

/-- Example responses for a declared code with a body and for an
undeclared code. -/
def c8Entries : List (String × SpecValidator.ExampleResponse) :=
  [("200", { headers := [], body := Oav.JsValue.obj 3 }),
   ("404", { headers := [], body := Oav.JsValue.obj 4 })]

/-- A required query parameter used by the falsy-value scenario. -/
def c9Parameter : SpecValidator.SwayParameter :=
  { name := "x", location := "query", required := true, skipUrlEncoding := false }

/-- A starting options object for the falsy-value scenario. -/
def c9Options : SpecValidator.RequestOptions :=
  { method := "get", pathTemplate := "/widgets" }

/-- A default-only ResponseSpec with no schema and no declared headers. -/
def c3DefaultSpec : LiveValidator.ResponseSpec :=
  { schema := none, headers := [] }

/-- An operation declaring only a default error response, as in the
defaultIsErrorOnly contract of the tests. -/
def c3Operation : LiveValidator.LiveOperation :=
  { operationId := "Default_Get", httpVerb := "get"
    pathTemplate := [LiveValidator.PathSegment.literal ("providers"),
      LiveValidator.PathSegment.literal ("someprovider")]
    parameters := []
    responses := [("default", c3DefaultSpec)]
    produces := ["application/json"] }

/-- A structural validator reporting no mismatches. -/
def structuralValidatorNothing : LiveValidator.SchemaValidator := fun _ _ => []

/-- A request URL naming a provider that no cache entry covers. -/
def c4Url : String :=
  "https://management.azure.com/subscriptions/subId/providers/Hello.World/checkNameAvailability?api-version=2015-06-15"

/-- A live request used by the aggregator scenarios. -/
def c6Request : LiveValidator.LiveRequest :=
  { url := "https://management.azure.com/providers/Some.Provider/things?api-version=2016-01-01"
    method := "get", headers := [], query := [], body := Oav.JsValue.undefined }

/-- A live response used by the aggregator scenarios. -/
def c6Response : LiveValidator.LiveResponse :=
  { statusCode := "200", headers := [], body := Oav.JsValue.undefined }

/-- The live transaction used by the aggregator scenarios. -/
def c6Pair : LiveValidator.RequestResponsePair :=
  { liveRequest := c6Request, liveResponse := c6Response }

/-! Helper lemmas shared by the claim theorems. -/

/-- The parameter loop breaks at the first required parameter whose value
is falsy, provided no earlier parameter already triggered the break:
exactly one error is recorded and the parameters after it are never
examined. -/
theorem processParameters_break (operationId : String) (vals : List (String × Oav.JsValue))
    (p : SpecValidator.SwayParameter) (post : List SpecValidator.SwayParameter)
    (hp : Oav.jsFalsy (Oav.jsLookup vals p.name) = true) (hreq : p.required = true) :
    ∀ (pre : List SpecValidator.SwayParameter) (opts : SpecValidator.RequestOptions)
      (errs : List SpecValidator.SpecError),
      (∀ q ∈ pre, Oav.jsFalsy (Oav.jsLookup vals q.name) = true → q.required = false) →
      ∃ finalOptions,
        SpecValidator.processParameters operationId vals (pre ++ p :: post) opts errs =
          (finalOptions,
            errs ++ [SpecValidator.requiredParameterExampleNotFoundError operationId p.name],
            true) := by
  intro pre
  induction pre with
  | nil =>
    intro opts errs _
    exact ⟨opts, by simp [SpecValidator.processParameters, hp, hreq]⟩
  | cons q rest ih =>
    intro opts errs hpre
    have hq : Oav.jsFalsy (Oav.jsLookup vals q.name) = true → q.required = false :=
      hpre q (by simp)
    have hrest : ∀ r ∈ rest, Oav.jsFalsy (Oav.jsLookup vals r.name) = true → r.required = false :=
      fun r hr => hpre r (by simp [hr])
    by_cases hf : Oav.jsFalsy (Oav.jsLookup vals q.name) = true
    · obtain ⟨fo, hfo⟩ := ih opts errs hrest
      exact ⟨fo, by simp [SpecValidator.processParameters, hf, hq hf, hfo]⟩
    · obtain ⟨fo, hfo⟩ :=
        ih (SpecValidator.addLocatedParameter opts q (Oav.jsLookup vals q.name)) errs hrest
      exact ⟨fo, by simp [SpecValidator.processParameters, hf, hfo]⟩

/-- A non-empty includeErrors sequence leaves only errors whose code it
contains. -/
theorem filterErrorsByCodes_all_mem (codes : List String)
    (r : LiveValidator.ValidationResult) (h : codes ≠ []) :
    ((LiveValidator.filterErrorsByCodes codes r).errors.all
      (fun e => codes.contains e.code)) = true := by
  have hne : codes.isEmpty = false := by
    cases codes with
    | nil => exact absurd rfl h
    | cons a l => rfl
  simp only [LiveValidator.filterErrorsByCodes, hne, Bool.false_eq_true, if_false]
  rw [List.all_eq_true]
  intro e he
  exact (List.mem_filter.mp he).2

/-! Claim theorems. -/

/-- C1: the claim says an internal failure while preparing the request in
validateRequest is recovered into the result as an ErrorInPreparingRequest
error. It is not: on a concrete operation whose preparation throws, the
catch handler itself throws a ReferenceError, because the identifier error
it reads is unbound, so the failure escapes validateRequest as a fatal
exception and no result object is returned. -/
theorem validateRequest_prepare_failure_escapes :
    SpecValidator.validateRequest c1Operation [("body", Oav.JsValue.obj 0)]
      c1PrepareFailing swayValidateNothing =
      Oav.JsOutcome.thrown ("ReferenceError: error is not defined") := rfl

/-- C2 counterexample: on an operation with two required parameters, both
missing from the example values, validateRequest records the error for the
first parameter only — the loop breaks instead of continuing with the
remaining declared parameters — and the recorded code is
RequiredParameterExampleNotFound, not MISSING_REQUIRED_PARAMETER. -/
theorem validateRequest_required_break_counterexample :
    SpecValidator.validateRequest c2Operation [] prepareSucceeding swayValidateNothing =
      Oav.JsOutcome.ok
        { request := none
          validationResult :=
            { errors := [SpecValidator.requiredParameterExampleNotFoundError ("Ops_Two") ("a")]
              warnings := [] } }
    ∧ (SpecValidator.requiredParameterExampleNotFoundError ("Ops_Two") ("a")).code ≠
        "MISSING_REQUIRED_PARAMETER" :=
  ⟨rfl, by decide⟩

/-- C2 amended: in validateRequest, the first declared parameter that is
required but has a falsy (in particular absent) example value yields a
single RequiredParameterExampleNotFound error, after which the whole loop
stops — the remaining declared parameters are not considered — and the
request is not constructed. -/
theorem validateRequest_required_break (op : SpecValidator.SwayOperation)
    (vals : List (String × Oav.JsValue))
    (prepare : SpecValidator.RequestOptions → Oav.JsOutcome SpecValidator.HttpRequest)
    (sway : SpecValidator.HttpRequest → SpecValidator.ValidationLists)
    (pre : List SpecValidator.SwayParameter) (p : SpecValidator.SwayParameter)
    (post : List SpecValidator.SwayParameter)
    (hparams : op.parameters = pre ++ p :: post)
    (hpre : ∀ q ∈ pre, Oav.jsFalsy (Oav.jsLookup vals q.name) = true → q.required = false)
    (hp : Oav.jsFalsy (Oav.jsLookup vals p.name) = true)
    (hreq : p.required = true) :
    SpecValidator.validateRequest op vals prepare sway =
      Oav.JsOutcome.ok
        { request := none
          validationResult :=
            { errors :=
                [SpecValidator.requiredParameterExampleNotFoundError op.operationId p.name]
              warnings := [] } } := by
  obtain ⟨fo, hfo⟩ :=
    processParameters_break op.operationId vals p post hp hreq pre
      { method := op.method, pathTemplate := op.path } [] hpre
  simp [SpecValidator.validateRequest, hparams, hfo, SpecValidator.mergeValidationLists]

/-- C2 amended witness: the amended behaviour on the concrete
two-required-parameters operation with no example values. -/
theorem validateRequest_required_break_witness :
    SpecValidator.validateRequest c2Operation [] prepareSucceeding swayValidateNothing =
      Oav.JsOutcome.ok
        { request := none
          validationResult :=
            { errors :=
                [SpecValidator.requiredParameterExampleNotFoundError ("Ops_Two") ("a")]
              warnings := [] } } :=
  validateRequest_required_break c2Operation [] prepareSucceeding swayValidateNothing
    [] c2ParameterA [c2ParameterB] rfl (by simp) rfl rfl

/-- C9: inside the parameter loop of validateRequest, every JavaScript
falsy value (absent/undefined, null, the empty string, 0, false) is
treated exactly like an absent value: a required parameter yields the
missing-required-parameter error (RequiredParameterExampleNotFound) and
ends the loop, while an optional parameter is silently skipped and
contributes nothing to the options object under construction. -/
theorem processParameters_falsy_as_absent (operationId : String)
    (vals : List (String × Oav.JsValue)) (p : SpecValidator.SwayParameter)
    (rest : List SpecValidator.SwayParameter) (opts : SpecValidator.RequestOptions)
    (errs : List SpecValidator.SpecError)
    (hfalsy : Oav.jsFalsy (Oav.jsLookup vals p.name) = true) :
    (Oav.jsFalsy Oav.JsValue.undefined = true ∧ Oav.jsFalsy Oav.JsValue.null = true ∧
      Oav.jsFalsy (Oav.JsValue.str ("")) = true ∧ Oav.jsFalsy (Oav.JsValue.num 0) = true ∧
      Oav.jsFalsy (Oav.JsValue.bool false) = true)
    ∧ SpecValidator.processParameters operationId vals (p :: rest) opts errs =
        (if p.required = true then
          (opts, errs ++ [SpecValidator.requiredParameterExampleNotFoundError operationId p.name],
            true)
        else
          SpecValidator.processParameters operationId vals rest opts errs) := by
  refine ⟨by decide, ?_⟩
  by_cases hreq : p.required = true
  · simp [SpecValidator.processParameters, hfalsy, hreq]
  · simp [SpecValidator.processParameters, hfalsy, hreq]

/-- C9 witness: the falsy value 0 supplied for a required parameter on the
concrete operation behaves as the theorem states. -/
theorem processParameters_falsy_as_absent_witness :
    (Oav.jsFalsy Oav.JsValue.undefined = true ∧ Oav.jsFalsy Oav.JsValue.null = true ∧
      Oav.jsFalsy (Oav.JsValue.str ("")) = true ∧ Oav.jsFalsy (Oav.JsValue.num 0) = true ∧
      Oav.jsFalsy (Oav.JsValue.bool false) = true)
    ∧ SpecValidator.processParameters ("Widgets_List") [("x", Oav.JsValue.num 0)]
        [c9Parameter] c9Options [] =
        (if c9Parameter.required = true then
          (c9Options,
            [] ++ [SpecValidator.requiredParameterExampleNotFoundError ("Widgets_List") ("x")],
            true)
        else
          SpecValidator.processParameters ("Widgets_List") [("x", Oav.JsValue.num 0)]
            [] c9Options []) :=
  processParameters_falsy_as_absent ("Widgets_List") [("x", Oav.JsValue.num 0)]
    c9Parameter [] c9Options [] rfl

/-- C7: in validateXmsExampleResponses, when the example response headers
carry no content-type under either the lower-case or the capitalised key,
the wrapper that reaches the sway response validation has its content-type
set to the first declared produced content type, produces[0], and the
absent header itself contributes no error: the entry for that status code
is exactly the external validation result of the amended wrapper. -/
theorem validateXmsExampleResponses_content_type_default
    (op : SpecValidator.SwayOperation)
    (sway : SpecValidator.ResponseWrapper → SpecValidator.ValidationLists)
    (exampleResponseValue : List (String × SpecValidator.ExampleResponse))
    (statusCode : String) (ex : SpecValidator.ExampleResponse)
    (response : SpecValidator.SwayResponse)
    (hmem : (statusCode, ex) ∈ exampleResponseValue)
    (hresp : SpecValidator.getResponse op statusCode = some response)
    (hnoSchemaIssue : (Oav.jsTruthy ex.body && Oav.jsFalsy response.schema) = false)
    (hct1 : Oav.jsFalsy (Oav.jsLookup ex.headers ("content-type")) = true)
    (hct2 : Oav.jsFalsy (Oav.jsLookup ex.headers ("Content-Type")) = true) :
    (statusCode,
        sway { statusCode := statusCode, body := ex.body,
               headers := Oav.jsSet ex.headers ("content-type") (Oav.jsIndex op.produces 0) })
      ∈ SpecValidator.validateXmsExampleResponses op sway exampleResponseValue := by
  unfold SpecValidator.validateXmsExampleResponses
  refine List.mem_map.mpr ⟨(statusCode, ex), hmem, ?_⟩
  simp [SpecValidator.validateOneExampleResponse, hresp, hnoSchemaIssue, hct1, hct2]

/-- C7 witness: the concrete operation producing application/json and an
example response without headers. -/
theorem validateXmsExampleResponses_content_type_default_witness :
    ("200",
        swayValidateResponseNothing
          { statusCode := "200", body := c7Example.body,
            headers :=
              Oav.jsSet c7Example.headers ("content-type") (Oav.jsIndex c7Operation.produces 0) })
      ∈ SpecValidator.validateXmsExampleResponses c7Operation swayValidateResponseNothing
          [("200", c7Example)] :=
  validateXmsExampleResponses_content_type_default c7Operation swayValidateResponseNothing
    [("200", c7Example)] ("200") c7Example { statusCode := "200", schema := Oav.JsValue.obj 1 }
    (by simp) rfl rfl rfl rfl

/-- C8: in validateXmsExampleResponses, an example status code that is not
declared in the operation yields a result entry holding exactly the
ResponseStatusCodeNotInSpec error, and a declared status code whose
example supplies a (truthy) body while the declared response has a falsy
schema yields a result entry holding exactly the ResponseSchemaNotInSpec
error; in both cases the entry does not depend on the structural response
validation, which is skipped. -/
theorem validateXmsExampleResponses_undeclared_and_schemaless
    (op : SpecValidator.SwayOperation)
    (sway : SpecValidator.ResponseWrapper → SpecValidator.ValidationLists)
    (exampleResponseValue : List (String × SpecValidator.ExampleResponse))
    (statusCode : String) (ex : SpecValidator.ExampleResponse)
    (hmem : (statusCode, ex) ∈ exampleResponseValue) :
    (SpecValidator.getResponse op statusCode = none →
      (statusCode,
          ({ errors := [SpecValidator.responseStatusCodeNotInSpecError op.operationId statusCode]
             warnings := [] } : SpecValidator.ValidationLists))
        ∈ SpecValidator.validateXmsExampleResponses op sway exampleResponseValue)
    ∧ (∀ response, SpecValidator.getResponse op statusCode = some response →
        Oav.jsTruthy ex.body = true → Oav.jsFalsy response.schema = true →
        (statusCode,
            ({ errors := [SpecValidator.responseSchemaNotInSpecError op.operationId statusCode]
               warnings := [] } : SpecValidator.ValidationLists))
          ∈ SpecValidator.validateXmsExampleResponses op sway exampleResponseValue) := by
  constructor
  · intro hnone
    unfold SpecValidator.validateXmsExampleResponses
    refine List.mem_map.mpr ⟨(statusCode, ex), hmem, ?_⟩
    simp [SpecValidator.validateOneExampleResponse, hnone]
  · intro response hresp hbody hschema
    unfold SpecValidator.validateXmsExampleResponses
    refine List.mem_map.mpr ⟨(statusCode, ex), hmem, ?_⟩
    simp [SpecValidator.validateOneExampleResponse, hresp, hbody, hschema]

/-- C8 witness: the concrete operation declaring only a schemaless 200
response, with examples for 200 (with a body) and for the undeclared
404. -/
theorem validateXmsExampleResponses_undeclared_and_schemaless_witness :
    (("404",
        ({ errors := [SpecValidator.responseStatusCodeNotInSpecError ("Thing_Get") ("404")]
           warnings := [] } : SpecValidator.ValidationLists))
      ∈ SpecValidator.validateXmsExampleResponses c8Operation swayValidateResponseNothing c8Entries)
    ∧ (("200",
        ({ errors := [SpecValidator.responseSchemaNotInSpecError ("Thing_Get") ("200")]
           warnings := [] } : SpecValidator.ValidationLists))
      ∈ SpecValidator.validateXmsExampleResponses c8Operation swayValidateResponseNothing c8Entries) :=
  ⟨(validateXmsExampleResponses_undeclared_and_schemaless c8Operation
      swayValidateResponseNothing c8Entries ("404") { headers := [], body := Oav.JsValue.obj 4 }
      (by simp [c8Entries])).1 rfl,
   (validateXmsExampleResponses_undeclared_and_schemaless c8Operation
      swayValidateResponseNothing c8Entries ("200") { headers := [], body := Oav.JsValue.obj 3 }
      (by simp [c8Entries])).2 { statusCode := "200", schema := Oav.JsValue.undefined } rfl rfl rfl⟩

/-- C3: for response validation against an operation whose only
undeclared-code coverage is a default error response, a live response with
an undeclared status code numerically at least 400 (such as 404) validates
with zero errors (given that the structural check of the body and declared
headers against the default spec reports none), while an undeclared status
code below 400 (such as 300) yields exactly one error, whose code is
INVALID_RESPONSE_CODE, with body validation skipped — the result does not
depend on the structural validator at all. -/
theorem validateResponse_default_error_policy (v : LiveValidator.SchemaValidator)
    (op : LiveValidator.LiveOperation) (headers : List (String × String))
    (body : Oav.JsValue) (defaultSpec : LiveValidator.ResponseSpec)
    (hdef : op.responses.lookup ("default") = some defaultSpec)
    (h404 : op.responses.lookup ("404") = none)
    (h300 : op.responses.lookup ("300") = none)
    (hbody : LiveValidator.validateBodyAgainstSpec v defaultSpec body = [])
    (hheaders : LiveValidator.validateDeclaredHeaders v defaultSpec
      { statusCode := "404", headers := headers, body := body } = []) :
    (LiveValidator.validateResponseAgainstOperation v op
        { statusCode := "404", headers := headers, body := body }).errors = []
    ∧ ∀ v2, (LiveValidator.validateResponseAgainstOperation v2 op
        { statusCode := "300", headers := headers, body := body }).errors =
        [LiveValidator.invalidResponseCodeError ("300")] := by
  constructor
  · have hge : 400 ≤ ((LiveValidator.statusCodeToNat? ("404")).getD 0) := by decide
    simp [LiveValidator.validateResponseAgainstOperation, h404, hdef, hbody, hheaders, hge]
  · intro v2
    have hlt : ¬ (400 ≤ ((LiveValidator.statusCodeToNat? ("300")).getD 0)) := by decide
    simp [LiveValidator.validateResponseAgainstOperation, h300, hdef, hlt]

/-- C3 witness: the concrete default-only operation with an empty live
body behaves as the theorem states for status codes 404 and 300. -/
theorem validateResponse_default_error_policy_witness :
    (LiveValidator.validateResponseAgainstOperation structuralValidatorNothing c3Operation
        { statusCode := "404", headers := [], body := Oav.JsValue.undefined }).errors = []
    ∧ (LiveValidator.validateResponseAgainstOperation structuralValidatorNothing c3Operation
        { statusCode := "300", headers := [], body := Oav.JsValue.undefined }).errors =
        [LiveValidator.invalidResponseCodeError ("300")] :=
  ⟨(validateResponse_default_error_policy structuralValidatorNothing c3Operation []
      Oav.JsValue.undefined c3DefaultSpec rfl rfl rfl rfl rfl).1,
   (validateResponse_default_error_policy structuralValidatorNothing c3Operation []
      Oav.JsValue.undefined c3DefaultSpec rfl rfl rfl rfl rfl).2 structuralValidatorNothing⟩

/-- C4: the operation matcher is a total function that never throws on a
failed match; a miss of the provider bucket yields reason
OperationNotFoundInCacheWithProvider, a miss of the api-version bucket
yields OperationNotFoundInCacheWithApi, a missing or empty verb bucket
yields OperationNotFoundInCacheWithVerb, and a path-template mismatch
yields the generic OperationNotFoundInCache — and whenever a reason is
returned the operations list is empty. -/
theorem getPotentialOperations_failure_reasons (ipcs : Bool)
    (cache : LiveValidator.Cache) (url verb : String) :
    (cache.lookup (LiveValidator.requestProvider url) = none →
      LiveValidator.getPotentialOperations ipcs cache url verb =
        { operations := []
          reason := some LiveValidator.MatchReasonCode.OperationNotFoundInCacheWithProvider })
    ∧ (∀ apiMap, cache.lookup (LiveValidator.requestProvider url) = some apiMap →
        apiMap.lookup (LiveValidator.requestApiVersion url) = none →
        LiveValidator.getPotentialOperations ipcs cache url verb =
          { operations := []
            reason := some LiveValidator.MatchReasonCode.OperationNotFoundInCacheWithApi })
    ∧ (∀ apiMap verbMap, cache.lookup (LiveValidator.requestProvider url) = some apiMap →
        apiMap.lookup (LiveValidator.requestApiVersion url) = some verbMap →
        (verbMap.lookup verb.toLower = none ∨ verbMap.lookup verb.toLower = some []) →
        LiveValidator.getPotentialOperations ipcs cache url verb =
          { operations := []
            reason := some LiveValidator.MatchReasonCode.OperationNotFoundInCacheWithVerb })
    ∧ (∀ apiMap verbMap ops, cache.lookup (LiveValidator.requestProvider url) = some apiMap →
        apiMap.lookup (LiveValidator.requestApiVersion url) = some verbMap →
        verbMap.lookup verb.toLower = some ops → ops ≠ [] →
        ops.filter (fun op =>
          LiveValidator.segmentsMatchTemplate ipcs op.pathTemplate
            (LiveValidator.requestPathSegments url)) = [] →
        LiveValidator.getPotentialOperations ipcs cache url verb =
          { operations := []
            reason := some LiveValidator.MatchReasonCode.OperationNotFoundInCache })
    ∧ (∀ reason, (LiveValidator.getPotentialOperations ipcs cache url verb).reason = some reason →
        (LiveValidator.getPotentialOperations ipcs cache url verb).operations = []) := by
  refine ⟨fun hp => ?_, fun apiMap hp ha => ?_, fun apiMap verbMap hp ha hv => ?_,
    fun apiMap verbMap ops hp ha hv hne hf => ?_, fun reason hr => ?_⟩
  · simp [LiveValidator.getPotentialOperations, hp]
  · simp [LiveValidator.getPotentialOperations, hp, ha]
  · rcases hv with hv | hv <;>
      simp [LiveValidator.getPotentialOperations, hp, ha, hv]
  · have hne' : ops.isEmpty = false := by
      cases ops with
      | nil => exact absurd rfl hne
      | cons a l => rfl
    simp [LiveValidator.getPotentialOperations, hp, ha, hv, hne', hf]
  · cases hcp : cache.lookup (LiveValidator.requestProvider url) with
    | none => simp [LiveValidator.getPotentialOperations, hcp]
    | some apiMap =>
      cases hca : apiMap.lookup (LiveValidator.requestApiVersion url) with
      | none => simp [LiveValidator.getPotentialOperations, hcp, hca]
      | some verbMap =>
        cases hcv : verbMap.lookup verb.toLower with
        | none => simp [LiveValidator.getPotentialOperations, hcp, hca, hcv]
        | some ops =>
          by_cases he : ops.isEmpty
          · simp [LiveValidator.getPotentialOperations, hcp, hca, hcv, he]
          · by_cases hm : (ops.filter (fun op =>
                LiveValidator.segmentsMatchTemplate ipcs op.pathTemplate
                  (LiveValidator.requestPathSegments url))).isEmpty
            · simp [LiveValidator.getPotentialOperations, hcp, hca, hcv, he, hm]
            · simp [LiveValidator.getPotentialOperations, hcp, hca, hcv, he, hm] at hr

/-- C4 witness: on the empty cache every provider lookup misses, so a
concrete request URL yields the provider-level reason with an empty
operations list. -/
theorem getPotentialOperations_failure_reasons_witness :
    LiveValidator.getPotentialOperations false [] c4Url ("post") =
      { operations := []
        reason := some LiveValidator.MatchReasonCode.OperationNotFoundInCacheWithProvider } :=
  (getPotentialOperations_failure_reasons false [] c4Url ("post")).1 rfl

/-- C5: for every live transaction, the combined entry point
validateLiveRequestResponse (with no filtering options) produces a
requestValidationResult identical to a separate validateLiveRequest call
on the same live request, and a responseValidationResult identical to a
separate validateLiveResponse call on the same live response with the
request context (url, method) taken from the same live request. -/
theorem validateLiveRequestResponse_agrees_with_split (ipcs : Bool)
    (v : LiveValidator.SchemaValidator) (cache : LiveValidator.Cache)
    (pair : LiveValidator.RequestResponsePair) :
    (LiveValidator.validateLiveRequestResponse ipcs v cache pair
        { includeErrors := [] }).requestValidationResult =
      LiveValidator.validateLiveRequest ipcs v cache pair.liveRequest
    ∧ (LiveValidator.validateLiveRequestResponse ipcs v cache pair
        { includeErrors := [] }).responseValidationResult =
      LiveValidator.validateLiveResponse ipcs v cache pair.liveResponse
        { url := pair.liveRequest.url, method := pair.liveRequest.method } :=
  ⟨rfl, rfl⟩

/-- C6: with a non-empty includeErrors sequence, every error kept in
either result of validateLiveRequestResponse has its code in the sequence;
with the empty (or absent) sequence, both results pass through exactly as
the unfiltered separate validations produce them. -/
theorem validateLiveRequestResponse_includeErrors_filter (ipcs : Bool)
    (v : LiveValidator.SchemaValidator) (cache : LiveValidator.Cache)
    (pair : LiveValidator.RequestResponsePair) (codes : List String) :
    (codes ≠ [] →
      (((LiveValidator.validateLiveRequestResponse ipcs v cache pair
            { includeErrors := codes }).requestValidationResult.errors.all
          (fun e => codes.contains e.code)) &&
        ((LiveValidator.validateLiveRequestResponse ipcs v cache pair
            { includeErrors := codes }).responseValidationResult.errors.all
          (fun e => codes.contains e.code))) = true)
    ∧ (codes = [] →
      LiveValidator.validateLiveRequestResponse ipcs v cache pair { includeErrors := codes } =
        { requestValidationResult :=
            LiveValidator.validateLiveRequest ipcs v cache pair.liveRequest
          responseValidationResult :=
            LiveValidator.validateLiveResponse ipcs v cache pair.liveResponse
              { url := pair.liveRequest.url, method := pair.liveRequest.method } }) := by
  constructor
  · intro h
    rw [Bool.and_eq_true]
    exact ⟨filterErrorsByCodes_all_mem codes _ h, filterErrorsByCodes_all_mem codes _ h⟩
  · intro h
    subst h
    rfl

/-- C6 witness: the concrete transaction filtered by the singleton
sequence INVALID_TYPE keeps only errors with that code, and the empty
sequence passes both unfiltered results through. -/
theorem validateLiveRequestResponse_includeErrors_filter_witness :
    ((((LiveValidator.validateLiveRequestResponse false structuralValidatorNothing [] c6Pair
          { includeErrors := ["INVALID_TYPE"] }).requestValidationResult.errors.all
        (fun e => ["INVALID_TYPE"].contains e.code)) &&
      ((LiveValidator.validateLiveRequestResponse false structuralValidatorNothing [] c6Pair
          { includeErrors := ["INVALID_TYPE"] }).responseValidationResult.errors.all
        (fun e => ["INVALID_TYPE"].contains e.code))) = true)
    ∧ LiveValidator.validateLiveRequestResponse false structuralValidatorNothing [] c6Pair
        { includeErrors := [] } =
        { requestValidationResult :=
            LiveValidator.validateLiveRequest false structuralValidatorNothing [] c6Pair.liveRequest
          responseValidationResult :=
            LiveValidator.validateLiveResponse false structuralValidatorNothing [] c6Pair.liveResponse
              { url := c6Pair.liveRequest.url, method := c6Pair.liveRequest.method } } :=
  ⟨(validateLiveRequestResponse_includeErrors_filter false structuralValidatorNothing [] c6Pair
      ["INVALID_TYPE"]).1 (by decide),
   (validateLiveRequestResponse_includeErrors_filter false structuralValidatorNothing [] c6Pair
      []).2 rfl⟩

/-- C10: for every string-typed argument, getXmsExamples throws an
exception instead of returning an x-ms-examples object — the empty string
fails the initial falsy check, and every other string enters the branch
that reads the unbound identifiers self and id, which never completes
normally — so only operation-object arguments can produce a non-throwing
result. -/
theorem getXmsExamples_string_always_throws (xmsExamplesOf : Oav.JsValue → Oav.JsValue)
    (s : String) :
    ∃ m, SpecValidator.getXmsExamples xmsExamplesOf (Oav.JsValue.str s) =
      Oav.JsOutcome.thrown m := by
  by_cases h : s = ""
  · subst h
    exact ⟨_, rfl⟩
  · refine ⟨"ReferenceError: self is not defined", ?_⟩
    have hf : Oav.jsFalsy (Oav.JsValue.str s) = false := by
      simp [Oav.jsFalsy, h]
    simp [SpecValidator.getXmsExamples, hf, Oav.jsTypeofValueOf, Oav.resolveIdentifier,
      SpecValidator.getXmsExamplesScope, Oav.jsBind]

end Oav
